import Mathlib

/-!
Shallow embedding of the quilt-designer application (`quilt.ts`).

The embedding covers the pattern model, the random pattern generator, the
grid-orientation mapping (`updateOrientation`, `landscapeToPortrait`, and the
display-index resolution of `renderQuilt`), session save/load
(`saveQuilt`/`loadQuilt`), the PNG export's canvas dimensions and filename,
the per-cell rotation operation (`rotatePattern`), and the geometry emitted by
the two renderers (the CSS/SVG style layer `getPatternStyle` and the canvas
raster layer inside `exportQuiltAsPNG`).

Modelling conventions:
* JavaScript numbers that only ever hold non-negative integers (array indices,
  row/column counts) are modelled as `Nat`; pattern rotations, which can be
  negative after a hostile JSON load, are modelled as `Int`, and the JS `%`
  operator (remainder with the sign of the dividend) as `Int.tmod`.
* Geometry coordinates emitted by the renderers are modelled as `ℚ`.  The one
  irrational quantity in the source, the cell diagonal `size * sqrt 2` used by
  the diagonal-stripe raster code, is carried as its rational coefficient of
  `√2` (see `rasterCellShapes`).
* Randomness (`Math.random`) is made explicit: the choice of pattern kind is a
  `Fin 9` argument and generated colors come from a supplied `Nat → String`
  stream; fresh-pattern regeneration takes an `rng : Nat → Pattern` stream.
* DOM manipulation, event-listener wiring and file I/O primitives are external
  collaborators; only their state effects on the session
  (patterns/library/gridConfig and the derived `rows`/`cols` globals) are
  modelled.  `JSON.parse` is modelled by handing `loadQuilt` the parse result
  as an `Except`; `JSON.stringify`/`JSON.parse` of the plain record types used
  here is the identity on the modelled data.
-/

namespace Quilt

/-- The nine pattern kinds of the `Pattern.type` union in `quilt.ts`. -/
inductive PatternType
  | solid
  | horizontal
  | vertical
  | diagonal
  | checkerboard
  | quartersquare
  | ninepatch
  | pinwheel
  | flyinggeese
deriving DecidableEq, Repr

/-- The `Pattern` interface: a kind tag, an ordered color list (CSS color
strings), and an optional rotation in degrees (`rotation?: number`). -/
structure Pattern where
  type : PatternType
  colors : List String
  rotation : Option Int := none
deriving DecidableEq, Repr

/-- The `GridConfig` interface: the user-configured logical grid shape. -/
structure GridConfig where
  rows : Nat
  cols : Nat
deriving DecidableEq, Repr

/-- The `QuiltData` snapshot shape.  All three data fields are `Option`
because `loadQuilt` guards each with a truthiness check before applying it
(a parsed JSON object can lack any of them). -/
structure QuiltData where
  patterns : Option (List Pattern)
  library : Option (List Pattern)
  gridConfig : Option GridConfig
  savedAt : String
deriving DecidableEq, Repr

/-- The mutable module-level session state of `quilt.ts`: the placed-pattern
array, the library, the configured grid, and the derived display dimension
globals `rows`/`cols` maintained by `updateOrientation`. -/
structure SessionState where
  patterns : List Pattern
  library : List Pattern
  gridConfig : GridConfig
  rows : Nat
  cols : Nat
deriving DecidableEq, Repr

/-- `pattern.colors[i]` as read by both renderers (out-of-range reads give the
JS `undefined`, modelled as the empty string; the claims under consideration
only evaluate in-range reads). -/
def col (p : Pattern) (i : Nat) : String :=
  p.colors.getD i ""

/-- `createRandomPattern`: the random kind choice `Math.floor(Math.random()*9)`
is the explicit argument `k`, and the successive `getRandomColor()` calls of
one invocation are `gen 0`, `gen 1`, ….  Each branch mirrors the source's
object literal for that kind; the source's unreachable default fallback is not
needed because `k : Fin 9` covers every kind. -/
def createRandomPattern (k : Fin 9) (gen : Nat → String) : Pattern :=
  match k with
  | 0 => { type := .solid, colors := [gen 0], rotation := some 0 }
  | 1 => { type := .horizontal, colors := [gen 0, gen 1, gen 2, gen 3, gen 4], rotation := some 0 }
  | 2 => { type := .vertical, colors := [gen 0, gen 1, gen 2, gen 3, gen 4], rotation := some 0 }
  | 3 => { type := .diagonal, colors := [gen 0, gen 1, gen 2, gen 3, gen 4], rotation := some 0 }
  | 4 => { type := .checkerboard, colors := [gen 0, gen 1], rotation := some 0 }
  | 5 => { type := .quartersquare, colors := [gen 0, gen 1, gen 2, gen 3], rotation := some 0 }
  | 6 => { type := .ninepatch, colors := [gen 0, gen 1, gen 2], rotation := some 0 }
  | 7 => { type := .pinwheel, colors := [gen 0, gen 1], rotation := some 0 }
  | 8 => { type := .flyinggeese, colors := [gen 0, gen 1, gen 2], rotation := some 0 }

/-- Required color count per kind, as hard-coded in `updateColorPickers`
(`numColors` per selected type), matching the table of the specification:
solid=1, stripes=5, checkerboard=2, quartersquare=4, ninepatch=3, pinwheel=2,
flyinggeese=3. -/
def requiredColorCount : PatternType → Nat
  | .solid => 1
  | .horizontal => 5
  | .vertical => 5
  | .diagonal => 5
  | .checkerboard => 2
  | .quartersquare => 4
  | .ninepatch => 3
  | .pinwheel => 2
  | .flyinggeese => 3

/-- `initializeColors`: rebuild the placed-pattern array with `total` fresh
random patterns; the `i`-th `createRandomPattern()` call is `rng i`. -/
def initColors (rng : Nat → Pattern) (total : Nat) : List Pattern :=
  (List.range total).map rng

/-- The `configIsWiderThanTall` test of `updateOrientation`
(`gridConfig.cols > gridConfig.rows`). -/
def configIsWiderThanTall (cfg : GridConfig) : Bool :=
  cfg.rows < cfg.cols

/-- `updateOrientation`: the display `(rows, cols)` pair derived from the
configured grid and the viewport aspect.  The configured dimensions are
swapped exactly when portrait-and-config-wider or
landscape-and-config-not-wider. -/
def updateOrientation (isPortrait : Bool) (cfg : GridConfig) : Nat × Nat :=
  if (isPortrait && configIsWiderThanTall cfg)
      || (!isPortrait && !configIsWiderThanTall cfg) then
    (cfg.cols, cfg.rows)
  else
    (cfg.rows, cfg.cols)

/-- `landscapeToPortrait`: the index transform applied by `renderQuilt`,
`exportQuiltAsPNG` and the drop handlers whenever the viewport is landscape.
`landscapeCols` and `landscapeRows` are the source's local names.  All
quantities are non-negative for every index below `rows * cols`, so `Nat`
division/subtraction agree with the source's JS arithmetic there. -/
def landscapeToPortrait (cfg : GridConfig) (landscapeIndex : Nat) : Nat :=
  let landscapeCols := cfg.rows
  let landscapeRows := cfg.cols
  let row := landscapeIndex / landscapeCols
  let c := landscapeIndex % landscapeCols
  let portraitRow := c
  let portraitCol := landscapeRows - 1 - row
  portraitRow * cfg.cols + portraitCol

/-- The display-cell → pattern-array index resolution of `renderQuilt`
(`let patternIndex = i; if (!isPortrait) patternIndex = landscapeToPortrait(i)`). -/
def displayPatternIndex (isPortrait : Bool) (cfg : GridConfig) (i : Nat) : Nat :=
  if isPortrait then i else landscapeToPortrait cfg i

/-- The specification's own rotation formula, stated in its words: with
`dCols = gridConfig.rows` and `dRows = gridConfig.cols`, compute
`row = i / dCols`, `col = i % dCols`, `logicalRow = col`,
`logicalCol = dRows - 1 - row`, linearized as
`logicalRow * logicalCols + logicalCol` with `logicalCols = gridConfig.cols`.
Declared separately from `landscapeToPortrait` so the code/spec refinement can
be stated. -/
def specRotationIndex (cfg : GridConfig) (i : Nat) : Nat :=
  let dCols := cfg.rows
  let dRows := cfg.cols
  let row := i / dCols
  let c := i % dCols
  let logicalRow := c
  let logicalCol := dRows - 1 - row
  let logicalCols := cfg.cols
  logicalRow * logicalCols + logicalCol

/-- The mathematical inverse of `landscapeToPortrait` (not a source function):
recovers the display index from the logical index for the same grid
configuration. -/
def portraitToLandscape (cfg : GridConfig) (j : Nat) : Nat :=
  (cfg.cols - 1 - j % cfg.cols) * cfg.rows + j / cfg.cols

/-- `renderQuilt`'s state effect: refresh the display dimensions via
`updateOrientation`, and regenerate the placed-pattern array with fresh random
patterns when its length disagrees with `rows * cols`.  (The DOM square
construction and event wiring are display-only.) -/
def renderQuilt (isPortrait : Bool) (rng : Nat → Pattern) (st : SessionState) :
    SessionState :=
  let rc := updateOrientation isPortrait st.gridConfig
  let ps :=
    if st.patterns.length ≠ rc.1 * rc.2 then initColors rng (rc.1 * rc.2)
    else st.patterns
  { st with rows := rc.1, cols := rc.2, patterns := ps }

/-- `rotatePattern`: bump `patterns[index].rotation` by 90 degrees.  The
source first replaces a falsy rotation (absent or `0`) by `0` and then stores
`(rotation + 90) % 360`; the net effect on the stored value is
`(rotation-or-0 + 90)` under JS truncated remainder, i.e. `Int.tmod`.
It then re-renders the quilt. -/
def rotatePattern (isPortrait : Bool) (rng : Nat → Pattern) (st : SessionState)
    (index : Nat) : SessionState :=
  let p := st.patterns.getD index { type := .solid, colors := [] }
  let r : Int := p.rotation.getD 0
  let p2 := { p with rotation := some ((r + 90).tmod 360) }
  renderQuilt isPortrait rng { st with patterns := st.patterns.set index p2 }

/-- `saveQuilt`'s serialized snapshot: all three data fields present, plus the
timestamp string. -/
def saveQuilt (st : SessionState) (now : String) : QuiltData :=
  { patterns := some st.patterns
    library := some st.library
    gridConfig := some st.gridConfig
    savedAt := now }

/-- `loadQuilt`'s reader callback, fed the outcome of `JSON.parse`.  On a
parse error the `catch` branch alerts the failure and no state is touched
(second component `true` = error surfaced).  On success each present field is
applied in source order: restoring `patterns` immediately re-renders (with the
*current* `gridConfig` still in effect), restoring `library` re-renders the
library, and restoring `gridConfig` also overwrites the `rows`/`cols` globals
without re-rendering. -/
def loadQuilt (isPortrait : Bool) (rng : Nat → Pattern) (st : SessionState)
    (parsed : Except String QuiltData) : SessionState × Bool :=
  match parsed with
  | .error _ => (st, true)
  | .ok q =>
      let st1 :=
        match q.patterns with
        | some ps => renderQuilt isPortrait rng { st with patterns := ps }
        | none => st
      let st2 :=
        match q.library with
        | some lib => { st1 with library := lib }
        | none => st1
      let st3 :=
        match q.gridConfig with
        | some g => { st2 with gridConfig := g, rows := g.rows, cols := g.cols }
        | none => st2
      (st3, false)

/-- `exportQuiltAsPNG`'s canvas dimensions `(width, height)`: the current
display dimension globals times the fixed `exportSquareSize = 100`. -/
def exportSize (st : SessionState) : Nat × Nat :=
  (st.cols * 100, st.rows * 100)

/-- The download filename built by `exportQuiltAsPNG`
(`quilt-${Date.now()}.png`). -/
def exportFilename (now : Nat) : String :=
  "quilt-" ++ toString now ++ ".png"

/-! ### Renderer geometry

`getPatternStyle` emits a CSS value (a flat color, a hard-stop
`linear-gradient`, or an inline SVG of `rect`/`polygon` elements); the raster
branch of `exportQuiltAsPNG` issues `fillRect`/path-fill calls on a
`exportSquareSize = 100` canvas cell.  Both are transcribed below over the
100×100 cell, keeping every numeric literal of the source. -/

/-- The gradient directions `getPatternStyle` emits: `to bottom`, `to right`,
and `45deg` (CSS angle, 0° = up, clockwise). -/
inductive GradDir
  | toBottom
  | toRight
  | deg45
deriving DecidableEq, Repr

/-- One pair of hard gradient stops `color s%` / `color e%` pushed by the
stripe loops of `getPatternStyle`. -/
structure GradStop where
  color : String
  startPct : ℚ
  endPct : ℚ
deriving DecidableEq, Repr

/-- The SVG elements appearing in `getPatternStyle`'s data-URL images. -/
inductive SvgElem
  | rect (x y w h : ℚ) (fill : String)
  | polygon (pts : List (ℚ × ℚ)) (fill : String)
deriving DecidableEq, Repr

/-- The structure of the CSS background value returned by `getPatternStyle`. -/
inductive CssDesc
  | flatColor (c : String)
  | linearGradient (dir : GradDir) (stops : List GradStop)
  | svg (elems : List SvgElem)
deriving DecidableEq, Repr

/-- The stripe stop list shared by the `horizontal`, `vertical` and `diagonal`
branches of `getPatternStyle`: `start = i * (100/5)`, `end = (i+1) * (100/5)`
for `i = 0..4`, color `pattern.colors[i]`. -/
def stripeStops (p : Pattern) : List GradStop :=
  (List.range 5).map fun (i : Nat) =>
    { color := col p i
      startPct := (i : ℚ) * (100 / 5)
      endPct := ((i : ℚ) + 1) * (100 / 5) }

/-- `getPatternStyle`, transcribed per kind.  The checkerboard/ninepatch rect
loops, the quartersquare/pinwheel/flyinggeese polygon point lists and the
ninepatch `33.33`/`33.34` literals are taken verbatim from the emitted SVG. -/
def getPatternStyle (p : Pattern) : CssDesc :=
  match p.type with
  | .solid => .flatColor (col p 0)
  | .horizontal => .linearGradient .toBottom (stripeStops p)
  | .vertical => .linearGradient .toRight (stripeStops p)
  | .diagonal => .linearGradient .deg45 (stripeStops p)
  | .checkerboard =>
      .svg <|
        (List.range 4).flatMap fun (row : Nat) =>
          (List.range 4).map fun (c : Nat) =>
            SvgElem.rect ((c : ℚ) * 25) ((row : ℚ) * 25) 25 25
              (if (row + c) % 2 = 0 then col p 0 else col p 1)
  | .quartersquare =>
      .svg
        [ .polygon [(0, 0), (100, 0), (50, 50)] (col p 0)
        , .polygon [(100, 0), (100, 100), (50, 50)] (col p 1)
        , .polygon [(100, 100), (0, 100), (50, 50)] (col p 2)
        , .polygon [(0, 100), (0, 0), (50, 50)] (col p 3) ]
  | .ninepatch =>
      .svg <|
        (List.range 3).flatMap fun (row : Nat) =>
          (List.range 3).map fun (c : Nat) =>
            SvgElem.rect ((c : ℚ) * 33.33) ((row : ℚ) * 33.33) 33.34 33.34
              (col p ((row * 3 + c) % p.colors.length))
  | .pinwheel =>
      .svg
        [ .polygon [(50, 50), (0, 0), (50, 0)] (col p 0)
        , .polygon [(50, 50), (50, 0), (100, 0)] (col p 1)
        , .polygon [(50, 50), (100, 0), (100, 50)] (col p 0)
        , .polygon [(50, 50), (100, 50), (100, 100)] (col p 1)
        , .polygon [(50, 50), (100, 100), (50, 100)] (col p 0)
        , .polygon [(50, 50), (50, 100), (0, 100)] (col p 1)
        , .polygon [(50, 50), (0, 100), (0, 50)] (col p 0)
        , .polygon [(50, 50), (0, 50), (0, 0)] (col p 1) ]
  | .flyinggeese =>
      .svg
        [ .polygon [(0, 0), (0, 100), (50, 50)] (col p 0)
        , .polygon [(50, 0), (50, 100), (100, 50)] (col p 1)
        , .polygon [(0, 0), (50, 0), (50, 50)] (col p 2)
        , .polygon [(50, 0), (100, 0), (100, 50)] (col p 2)
        , .polygon [(0, 100), (50, 100), (50, 50)] (col p 2)
        , .polygon [(50, 100), (100, 100), (100, 50)] (col p 2) ]

/-- Common geometric description of one filled region of a 100×100 cell, the
comparison language for the two renderers.  `diagBand lo hi` is the diagonal
band `{ (x, y) | lo ≤ x - y ≤ hi }` intersected with the cell: the bands
of a CSS `45deg` gradient and of the raster's −45°-rotated clipped stripes are
both of this form. -/
inductive Geom
  | rect (x y w h : ℚ) (fill : String)
  | poly (pts : List (ℚ × ℚ)) (fill : String)
  | diagBand (lo hi : ℚ) (fill : String)
deriving DecidableEq, Repr

/-- The geometric reading of a CSS background value over the 100×100 cell,
by standard CSS/SVG semantics: a flat color fills the cell; a hard-stop
`to bottom` (resp. `to right`) gradient stop pair `[s%, e%]` is the full-width
horizontal (resp. full-height vertical) band from `s` to `e`; a `45deg`
gradient's axis runs bottom-left → top-right with gradient-line length
`100√2`, so the stop pair `[s%, e%]` is the set of cell points whose
coordinates satisfy `2s - 100 ≤ x - y ≤ 2e - 100`; SVG elements denote
themselves. -/
def cssRegions : CssDesc → List Geom
  | .flatColor c => [.rect 0 0 100 100 c]
  | .linearGradient .toBottom stops =>
      stops.map fun s => .rect 0 s.startPct 100 (s.endPct - s.startPct) s.color
  | .linearGradient .toRight stops =>
      stops.map fun s => .rect s.startPct 0 (s.endPct - s.startPct) 100 s.color
  | .linearGradient .deg45 stops =>
      stops.map fun s =>
        .diagBand (2 * s.startPct - 100) (2 * s.endPct - 100) s.color
  | .svg elems =>
      elems.map fun e =>
        match e with
        | .rect x y w h f => .rect x y w h f
        | .polygon pts f => .poly pts f

/-- The per-cell drawing of the raster renderer in `exportQuiltAsPNG`,
transcribed call-by-call with `exportSquareSize = 100` (so `cx = cy = 50`,
`stripeHeight = stripeWidth = 100/5`, `checkSize = 100/4`,
`patchSize = 100/3`).  Each `fillRect` becomes a `Geom.rect`; each
`beginPath`/`moveTo`/`lineTo`/`fill` triangle becomes a `Geom.poly` with the
vertices in call order.

For `diagonal` the source clips to the cell, rotates the frame by −45° about
the cell center and fills, for `j = 0..4`, the frame rectangle with
`x ∈ [-diagonal/2 + j*stripeWidth, -diagonal/2 + (j+1)*stripeWidth]` and full
frame height `diagonal`, where `diagonal = 100 * √2` and
`stripeWidth = diagonal / 5`.  Every frame abscissa is a rational multiple of
`√2`, carried below by its coefficient (`diagonal = dC * √2` with `dC = 100`):
a cell point `(x, y)` has frame abscissa `(x - y) / √2`, so the frame interval
with coefficients `[a, b]` is exactly the cell band `2a ≤ x - y ≤ 2b`, and the
frame rectangle's height covers the whole clipped cell. -/
def rasterCellShapes (p : Pattern) : List Geom :=
  match p.type with
  | .solid => [.rect 0 0 100 100 (col p 0)]
  | .horizontal =>
      (List.range 5).map fun (j : Nat) =>
        .rect 0 ((j : ℚ) * (100 / 5)) 100 (100 / 5) (col p j)
  | .vertical =>
      (List.range 5).map fun (j : Nat) =>
        .rect ((j : ℚ) * (100 / 5)) 0 (100 / 5) 100 (col p j)
  | .diagonal =>
      let dC : ℚ := 100
      let wC : ℚ := dC / 5
      (List.range 5).map fun (j : Nat) =>
        .diagBand (2 * (-(dC / 2) + (j : ℚ) * wC))
          (2 * (-(dC / 2) + ((j : ℚ) + 1) * wC)) (col p j)
  | .checkerboard =>
      (List.range 4).flatMap fun (row : Nat) =>
        (List.range 4).map fun (c : Nat) =>
          Geom.rect ((c : ℚ) * (100 / 4)) ((row : ℚ) * (100 / 4)) (100 / 4)
            (100 / 4) (col p ((row + c) % 2))
  | .quartersquare =>
      [ .poly [(0, 0), (100, 0), (50, 50)] (col p 0)
      , .poly [(100, 0), (100, 100), (50, 50)] (col p 1)
      , .poly [(100, 100), (0, 100), (50, 50)] (col p 2)
      , .poly [(0, 100), (0, 0), (50, 50)] (col p 3) ]
  | .ninepatch =>
      (List.range 3).flatMap fun (row : Nat) =>
        (List.range 3).map fun (c : Nat) =>
          Geom.rect ((c : ℚ) * (100 / 3)) ((row : ℚ) * (100 / 3)) (100 / 3)
            (100 / 3) (col p ((row * 3 + c) % p.colors.length))
  | .pinwheel =>
      [ .poly [(50, 50), (0, 0), (50, 0)] (col p 0)
      , .poly [(50, 50), (50, 0), (100, 0)] (col p 1)
      , .poly [(50, 50), (100, 0), (100, 50)] (col p 0)
      , .poly [(50, 50), (100, 50), (100, 100)] (col p 1)
      , .poly [(50, 50), (100, 100), (50, 100)] (col p 0)
      , .poly [(50, 50), (50, 100), (0, 100)] (col p 1)
      , .poly [(50, 50), (0, 100), (0, 50)] (col p 0)
      , .poly [(50, 50), (0, 50), (0, 0)] (col p 1) ]
  | .flyinggeese =>
      [ .poly [(0, 0), (0, 100), (50, 50)] (col p 0)
      , .poly [(50, 0), (50, 100), (100, 50)] (col p 1)
      , .poly [(0, 0), (50, 0), (50, 50)] (col p 2)
      , .poly [(50, 0), (100, 0), (50, 50)] (col p 2)
      , .poly [(0, 100), (50, 100), (50, 50)] (col p 2)
      , .poly [(50, 100), (100, 100), (50, 50)] (col p 2) ]

/-! ### Concrete example data used by witnesses and counterexamples -/

/-- A placeholder pattern (also the JS `undefined` stand-in for out-of-range
array reads in `rotatePattern`; the claims only exercise in-range reads). -/
def defaultPattern : Pattern :=
  { type := .solid, colors := [] }

/-- A fixed sample outcome for the fresh-pattern random stream. -/
def sampleRng : Nat → Pattern :=
  fun _ => { type := .solid, colors := ["gray"] }

/-- A sample library pattern. -/
def libPattern : Pattern :=
  { type := .checkerboard, colors := ["red", "blue"], rotation := some 0 }

/-- A session on a small 2×2 grid (4 placed patterns), the in-memory state at
load time in the round-trip scenario. -/
def statePre : SessionState :=
  { patterns := List.replicate 4 { type := .solid, colors := ["white"] }
    library := []
    gridConfig := ⟨2, 2⟩
    rows := 2
    cols := 2 }

/-- A session on the default 6×8 grid (48 placed patterns), the state whose
snapshot is saved in the round-trip scenario. -/
def stateSaved : SessionState :=
  { patterns := List.replicate 48 { type := .solid, colors := ["blue"] }
    library := [libPattern]
    gridConfig := ⟨6, 8⟩
    rows := 8
    cols := 6 }

/-- A snapshot containing only a library (`patterns` and `gridConfig`
absent). -/
def libOnlySnapshot : QuiltData :=
  { patterns := none
    library := some [libPattern]
    gridConfig := none
    savedAt := "2024-01-01T00:00:00Z" }

/-- A one-cell session used to exercise `rotatePattern`. -/
def stateOneCell : SessionState :=
  { patterns := [libPattern]
    library := []
    gridConfig := ⟨1, 1⟩
    rows := 1
    cols := 1 }

/-- A ninepatch pattern with three distinct colors. -/
def ninepatchSample : Pattern :=
  { type := .ninepatch, colors := ["a", "b", "c"], rotation := some 0 }

/-- A flying-geese pattern with three distinct colors. -/
def flyinggeeseSample : Pattern :=
  { type := .flyinggeese, colors := ["a", "b", "c"], rotation := some 0 }

/-- A solid pattern with one color. -/
def solidSample : Pattern :=
  { type := .solid, colors := ["a"], rotation := some 0 }

/-! ### Claims about the grid-orientation mapper -/

/-- C1 (counterexample).  The claim asserts that for
`gridConfig = {rows: 6, cols: 8}` on a portrait viewport the grid
displays as 8×6 *and* display cell (0,0) reads logical index 7.  The display
shape is right, but `renderQuilt` resolves display indices with the identity
when the viewport is portrait (`landscapeToPortrait` runs only in landscape),
so display cell (0,0) reads `patterns[0]`, not `patterns[7]`. -/
theorem C1_counterexample :
    ¬ (updateOrientation true ⟨6, 8⟩ = (8, 6) ∧
        displayPatternIndex true ⟨6, 8⟩ 0 = 7) := by
  decide

/-- C1 (amended).  A grid configured `{rows: 6, cols: 8}` on a portrait
viewport displays as 8 rows × 6 columns, and display cell (0,0) reads the
pattern at logical index 0: in portrait orientation `renderQuilt` uses the
identity display-to-logical mapping. -/
theorem C1_portrait_6x8_display :
    updateOrientation true ⟨6, 8⟩ = (8, 6) ∧
      displayPatternIndex true ⟨6, 8⟩ 0 = 0 := by
  decide

/-- C2 (counterexample).  With `gridConfig = {rows: 6, cols: 8}` the
configured aspect is wider than tall, matching a landscape viewport — yet
`renderQuilt`'s display-to-logical mapping in landscape sends display index 0
to logical index 7, not 0: the mapping is not the identity in the
aspect-consistent landscape case. -/
theorem C2_counterexample :
    configIsWiderThanTall ⟨6, 8⟩ = true ∧
      displayPatternIndex false ⟨6, 8⟩ 0 ≠ 0 := by
  decide

/-- C2 (amended).  `renderQuilt` uses the identity display-to-logical mapping
exactly when the viewport is portrait; whenever the viewport is landscape it
applies `landscapeToPortrait`, regardless of whether the configured aspect
already matches the viewport.  In particular display index 0 is sent to
logical index `cols - 1` in landscape, which differs from 0 for every grid
with at least two columns. -/
theorem C2_identity_only_in_portrait (cfg : GridConfig) (i : Nat) :
    displayPatternIndex true cfg i = i ∧
      displayPatternIndex false cfg i = landscapeToPortrait cfg i ∧
      landscapeToPortrait cfg 0 = cfg.cols - 1 := by
  refine ⟨rfl, rfl, ?_⟩
  simp [landscapeToPortrait]

/-- C3.  `landscapeToPortrait` computes exactly the rotation index transform
specified in the documentation: with `dCols = gridConfig.rows` and
`dRows = gridConfig.cols`, it returns
`(i % dCols) * gridConfig.cols + (dRows - 1 - i / dCols)` — the clockwise
90° rotation mapping `logicalRow = col`, `logicalCol = dRows - 1 - row`,
linearized over `logicalCols = gridConfig.cols`. -/
theorem C3_landscapeToPortrait_matches_spec (cfg : GridConfig) (i : Nat) :
    landscapeToPortrait cfg i = specRotationIndex cfg i :=
  rfl

/-- C4.  For every grid with `rows ≥ 1` and `cols ≥ 1`, `landscapeToPortrait`
is a bijection on `{0, …, rows*cols - 1}`: every output lies in range,
it is injective there, and composing with its inverse
(`portraitToLandscape`, for the same grid configuration) is the identity in
both directions on all valid indices. -/
theorem C4_landscapeToPortrait_bijective (cfg : GridConfig)
    (hr : 0 < cfg.rows) (hc : 0 < cfg.cols) :
    (∀ i < cfg.rows * cfg.cols,
        landscapeToPortrait cfg i < cfg.rows * cfg.cols) ∧
    (∀ i < cfg.rows * cfg.cols, ∀ j < cfg.rows * cfg.cols,
        landscapeToPortrait cfg i = landscapeToPortrait cfg j → i = j) ∧
    (∀ i < cfg.rows * cfg.cols,
        portraitToLandscape cfg (landscapeToPortrait cfg i) = i) ∧
    (∀ j < cfg.rows * cfg.cols,
        landscapeToPortrait cfg (portraitToLandscape cfg j) = j) := by
  have left_inv : ∀ i < cfg.rows * cfg.cols,
      portraitToLandscape cfg (landscapeToPortrait cfg i) = i := by
    intro i hi
    have hrR : i % cfg.rows < cfg.rows := Nat.mod_lt _ hr
    have hq : i / cfg.rows < cfg.cols := by
      rw [Nat.div_lt_iff_lt_mul hr]
      rwa [Nat.mul_comm cfg.cols cfg.rows]
    have hs : cfg.cols - 1 - i / cfg.rows < cfg.cols :=
      lt_of_le_of_lt (Nat.sub_le _ _) (Nat.sub_lt hc Nat.one_pos)
    have h1 : (i % cfg.rows * cfg.cols + (cfg.cols - 1 - i / cfg.rows)) % cfg.cols
        = cfg.cols - 1 - i / cfg.rows := by
      rw [Nat.add_comm, Nat.add_mul_mod_self_right, Nat.mod_eq_of_lt hs]
    have h2 : (i % cfg.rows * cfg.cols + (cfg.cols - 1 - i / cfg.rows)) / cfg.cols
        = i % cfg.rows := by
      rw [Nat.add_comm, Nat.add_mul_div_right _ _ hc, Nat.div_eq_of_lt hs,
        Nat.zero_add]
    have hdm := Nat.div_add_mod i cfg.rows
    unfold landscapeToPortrait portraitToLandscape
    simp only [h1, h2]
    have h3 : cfg.cols - 1 - (cfg.cols - 1 - i / cfg.rows) = i / cfg.rows :=
      Nat.sub_sub_self (Nat.le_pred_of_lt hq)
    rw [h3, Nat.mul_comm]
    exact hdm
  have range_ok : ∀ i < cfg.rows * cfg.cols,
      landscapeToPortrait cfg i < cfg.rows * cfg.cols := by
    intro i hi
    have hrR : i % cfg.rows < cfg.rows := Nat.mod_lt _ hr
    have hs : cfg.cols - 1 - i / cfg.rows < cfg.cols :=
      lt_of_le_of_lt (Nat.sub_le _ _) (Nat.sub_lt hc Nat.one_pos)
    unfold landscapeToPortrait
    have hstep : i % cfg.rows * cfg.cols + (cfg.cols - 1 - i / cfg.rows)
        < i % cfg.rows * cfg.cols + cfg.cols := Nat.add_lt_add_left hs _
    have hbound : i % cfg.rows * cfg.cols + cfg.cols ≤ cfg.rows * cfg.cols := by
      have h4 : i % cfg.rows + 1 ≤ cfg.rows := hrR
      calc i % cfg.rows * cfg.cols + cfg.cols
          = (i % cfg.rows + 1) * cfg.cols := by ring
        _ ≤ cfg.rows * cfg.cols := Nat.mul_le_mul_right _ h4
    exact lt_of_lt_of_le hstep hbound
  refine ⟨range_ok, ?_, left_inv, ?_⟩
  · intro i hi j hj hij
    have := left_inv i hi
    rw [hij, left_inv j hj] at this
    exact this.symm
  · intro j hj
    have hsC : j % cfg.cols < cfg.cols := Nat.mod_lt _ hc
    have hqR : j / cfg.cols < cfg.rows := by
      rw [Nat.div_lt_iff_lt_mul hc]
      exact hj
    have h1 : ((cfg.cols - 1 - j % cfg.cols) * cfg.rows + j / cfg.cols) % cfg.rows
        = j / cfg.cols := by
      rw [Nat.add_comm, Nat.add_mul_mod_self_right, Nat.mod_eq_of_lt hqR]
    have h2 : ((cfg.cols - 1 - j % cfg.cols) * cfg.rows + j / cfg.cols) / cfg.rows
        = cfg.cols - 1 - j % cfg.cols := by
      rw [Nat.add_comm, Nat.add_mul_div_right _ _ hr, Nat.div_eq_of_lt hqR,
        Nat.zero_add]
    have hdm := Nat.div_add_mod j cfg.cols
    unfold landscapeToPortrait portraitToLandscape
    simp only [h1, h2]
    have h3 : cfg.cols - 1 - (cfg.cols - 1 - j % cfg.cols) = j % cfg.cols :=
      Nat.sub_sub_self (Nat.le_pred_of_lt hsC)
    rw [h3, Nat.mul_comm]
    exact hdm

/-- C4 (witness): the bijection theorem instantiated on the 2×3 grid at
display index 4. -/
theorem C4_witness :
    landscapeToPortrait (⟨2, 3⟩ : GridConfig) 4 < 2 * 3 ∧
      portraitToLandscape ⟨2, 3⟩ (landscapeToPortrait ⟨2, 3⟩ 4) = 4 :=
  ⟨(C4_landscapeToPortrait_bijective ⟨2, 3⟩ (by decide) (by decide)).1 4
      (by decide),
    (C4_landscapeToPortrait_bijective ⟨2, 3⟩ (by decide)
        (by decide)).2.2.1 4 (by decide)⟩

/-! ### Claims about the pattern model and export interface -/

/-- C7.  Every pattern produced by `createRandomPattern` is valid: for every
outcome of the random kind selection and every color stream, the colors array
length equals the kind's required count and the rotation is initialized
to 0. -/
theorem C7_createRandomPattern_valid (k : Fin 9) (gen : Nat → String) :
    (createRandomPattern k gen).colors.length
        = requiredColorCount (createRandomPattern k gen).type ∧
      (createRandomPattern k gen).rotation = some 0 := by
  fin_cases k <;> exact ⟨rfl, rfl⟩

/-- C8 (counterexample).  After rendering the default
`gridConfig = {rows: 6, cols: 8}` on a portrait viewport,
`exportQuiltAsPNG` creates a canvas from the display dimension globals
(`rows = 8`, `cols = 6`), so the image is 600 pixels wide — not
`gridConfig.cols * 100 = 800` as claimed. -/
theorem C8_counterexample :
    (exportSize (renderQuilt true sampleRng
        { patterns := [], library := [], gridConfig := ⟨6, 8⟩,
          rows := 6, cols := 8 })).1 ≠ 8 * 100 := by
  decide

/-- C8 (amended).  `exportQuiltAsPNG` produces an image of
`displayCols * 100` by `displayRows * 100` pixels, where
`(displayRows, displayCols)` are the orientation-adjusted dimensions computed
by `updateOrientation` at the last render — equal to the configured
`(rows, cols)` only when no orientation swap is in effect — and the download
filename is `quilt-<unix-ms-timestamp>.png`. -/
theorem C8_export_display_dims (isPortrait : Bool) (rng : Nat → Pattern)
    (st : SessionState) (now : Nat) :
    exportSize (renderQuilt isPortrait rng st)
        = ((updateOrientation isPortrait st.gridConfig).2 * 100,
            (updateOrientation isPortrait st.gridConfig).1 * 100) ∧
      exportFilename now = "quilt-" ++ toString now ++ ".png" :=
  ⟨rfl, rfl⟩

/-! ### Claims about session save/load -/

/-- C5 (code bug).  Saving the 48-pattern 6×8 session and loading the
snapshot into a session currently on a 2×2 grid does *not* reproduce the
saved Placed-Pattern Array: `loadQuilt` restores `patterns` and immediately
re-renders while the old 2×2 configuration is still in effect, so
`renderQuilt`'s length guard throws the 48 loaded patterns away and
regenerates 4 random ones; `gridConfig` is restored only afterwards, without
re-deriving the patterns.  This holds for every outcome of the random
stream. -/
theorem C5_roundtrip_loses_patterns (rng : Nat → Pattern) :
    ((loadQuilt true rng statePre (.ok (saveQuilt stateSaved "t"))).1).patterns.length = 4 ∧
      stateSaved.patterns.length = 48 ∧
      ((loadQuilt true rng statePre
            (.ok (saveQuilt stateSaved "t"))).1).gridConfig = ⟨6, 8⟩ ∧
      ((loadQuilt true rng statePre
            (.ok (saveQuilt stateSaved "t"))).1).patterns ≠ stateSaved.patterns := by
  have hlen : ((loadQuilt true rng statePre
      (.ok (saveQuilt stateSaved "t"))).1).patterns.length = 4 := by
    simp [loadQuilt, saveQuilt, renderQuilt, updateOrientation,
      configIsWiderThanTall, initColors, statePre, stateSaved]
  refine ⟨hlen, by simp [stateSaved], ?_, ?_⟩
  · simp [loadQuilt, saveQuilt, renderQuilt, stateSaved]
  · intro h
    have : ((loadQuilt true rng statePre
        (.ok (saveQuilt stateSaved "t"))).1).patterns.length
          = stateSaved.patterns.length := by rw [h]
    rw [hlen] at this
    simp [stateSaved] at this

/-- C6.  `loadQuilt` is field-tolerant: a parse failure surfaces an error and
leaves the whole session untouched; on success the error flag is clear and
each of `patterns`, `library`, `gridConfig` is applied independently iff the
field is present — an absent `library` or `gridConfig` keeps the current
value (`gridConfig` absence also keeps the `rows`/`cols` globals when no
patterns were restored), an absent `patterns` leaves the current
placed-pattern array untouched, and a present `patterns` field is applied
(through the re-render) irrespective of the other fields. -/
theorem C6_load_field_tolerance (isPortrait : Bool) (rng : Nat → Pattern)
    (st : SessionState) :
    (∀ e : String, loadQuilt isPortrait rng st (.error e) = (st, true)) ∧
    (∀ q : QuiltData,
      (loadQuilt isPortrait rng st (.ok q)).2 = false ∧
      (loadQuilt isPortrait rng st (.ok q)).1.library
          = q.library.getD st.library ∧
      (loadQuilt isPortrait rng st (.ok q)).1.gridConfig
          = q.gridConfig.getD st.gridConfig ∧
      (q.patterns = none →
        (loadQuilt isPortrait rng st (.ok q)).1.patterns = st.patterns) ∧
      (q.patterns = none → q.gridConfig = none →
        (loadQuilt isPortrait rng st (.ok q)).1.rows = st.rows ∧
          (loadQuilt isPortrait rng st (.ok q)).1.cols = st.cols) ∧
      (∀ ps, q.patterns = some ps →
        (loadQuilt isPortrait rng st (.ok q)).1.patterns
          = (renderQuilt isPortrait rng { st with patterns := ps }).patterns)) := by
  refine ⟨fun e => rfl, fun q => ?_⟩
  rcases q with ⟨ps, lib, g, sa⟩
  cases ps <;> cases lib <;> cases g <;>
    simp [loadQuilt, renderQuilt]

/-- C6 (witness): loading a library-only snapshot into the 2×2 session keeps
`patterns` and `gridConfig`, replaces the library, and a parse failure
leaves the state untouched while surfacing the error. -/
theorem C6_witness :
    (loadQuilt true sampleRng statePre (.ok libOnlySnapshot)).1.patterns
        = statePre.patterns ∧
      (loadQuilt true sampleRng statePre (.ok libOnlySnapshot)).1.gridConfig
        = statePre.gridConfig ∧
      (loadQuilt true sampleRng statePre (.ok libOnlySnapshot)).1.library
        = [libPattern] ∧
      loadQuilt true sampleRng statePre (.error "SyntaxError") =
        (statePre, true) := by
  have h := C6_load_field_tolerance true sampleRng statePre
  have h2 := h.2 libOnlySnapshot
  refine ⟨h2.2.2.2.1 rfl, ?_, ?_, h.1 "SyntaxError"⟩
  · rw [h2.2.2.1]
    rfl
  · rw [h2.2.1]
    rfl

/-! ### Claim about `rotatePattern` -/

/-- Both branches of `updateOrientation` preserve the total cell count. -/
theorem updateOrientation_mul (isPortrait : Bool) (cfg : GridConfig) :
    (updateOrientation isPortrait cfg).1 * (updateOrientation isPortrait cfg).2
      = cfg.rows * cfg.cols := by
  unfold updateOrientation
  split <;> simp [Nat.mul_comm]

/-- When the placed-pattern array already has the invariant length
`rows * cols` of the configured grid, the re-render's length guard does not
fire and `renderQuilt` only refreshes the display dimension globals. -/
theorem renderQuilt_no_regen (isPortrait : Bool) (rng : Nat → Pattern)
    (st : SessionState)
    (h : st.patterns.length = st.gridConfig.rows * st.gridConfig.cols) :
    renderQuilt isPortrait rng st
      = { st with rows := (updateOrientation isPortrait st.gridConfig).1,
                  cols := (updateOrientation isPortrait st.gridConfig).2 } := by
  have hprod : st.patterns.length
      = (updateOrientation isPortrait st.gridConfig).1
          * (updateOrientation isPortrait st.gridConfig).2 := by
    rw [h, updateOrientation_mul]
  simp [renderQuilt, hprod]

/-- When the placed-pattern array has the invariant length `rows * cols` of
the configured grid, `rotatePattern` only overwrites entry `index` with its
rotation-bumped copy: the re-render's length guard does not fire. -/
theorem rotatePattern_patterns_eq (isPortrait : Bool) (rng : Nat → Pattern)
    (st : SessionState) (index : Nat)
    (hlen : st.patterns.length = st.gridConfig.rows * st.gridConfig.cols) :
    (rotatePattern isPortrait rng st index).patterns
        = st.patterns.set index
            { st.patterns.getD index defaultPattern with
                rotation := some
                  (((st.patterns.getD index defaultPattern).rotation.getD 0
                      + 90).tmod 360) } ∧
      (rotatePattern isPortrait rng st index).gridConfig = st.gridConfig ∧
      (rotatePattern isPortrait rng st index).patterns.length
        = st.patterns.length := by
  simp only [rotatePattern]
  rw [renderQuilt_no_regen isPortrait rng _ (by rw [List.length_set]; exact hlen)]
  exact ⟨rfl, rfl, by rw [List.length_set]⟩

/-- C10.  For every in-range index `i` of a session whose pattern array has
the invariant length `rows * cols`, `rotatePattern i` overwrites
`patterns[i].rotation` with `(r + 90) mod 360` (JS truncated remainder,
`r` the prior rotation taken as 0 when absent) and changes nothing else:
kind and colors of entry `i`, every other entry, the array length and the
grid configuration are unchanged.  A rotation in `{0, 90, 180, 270}`
stays in that set, and for any prior rotation in `[0, 360)` four successive
calls restore the original value. -/
theorem C10_rotatePattern_spec (isPortrait : Bool) (rng : Nat → Pattern)
    (st : SessionState) (i : Nat)
    (hi : i < st.patterns.length)
    (hlen : st.patterns.length = st.gridConfig.rows * st.gridConfig.cols) :
    (rotatePattern isPortrait rng st i).patterns.length
        = st.patterns.length ∧
    (rotatePattern isPortrait rng st i).gridConfig = st.gridConfig ∧
    ((rotatePattern isPortrait rng st i).patterns.getD i defaultPattern).type
        = (st.patterns.getD i defaultPattern).type ∧
    ((rotatePattern isPortrait rng st i).patterns.getD i defaultPattern).colors
        = (st.patterns.getD i defaultPattern).colors ∧
    ((rotatePattern isPortrait rng st i).patterns.getD i
          defaultPattern).rotation
        = some (((st.patterns.getD i defaultPattern).rotation.getD 0
            + 90).tmod 360) ∧
    (∀ j, j ≠ i →
      (rotatePattern isPortrait rng st i).patterns[j]? = st.patterns[j]?) ∧
    (((st.patterns.getD i defaultPattern).rotation.getD 0 = 0 ∨
        (st.patterns.getD i defaultPattern).rotation.getD 0 = 90 ∨
        (st.patterns.getD i defaultPattern).rotation.getD 0 = 180 ∨
        (st.patterns.getD i defaultPattern).rotation.getD 0 = 270) →
      (((rotatePattern isPortrait rng st i).patterns.getD i
            defaultPattern).rotation.getD 0 = 0 ∨
        ((rotatePattern isPortrait rng st i).patterns.getD i
            defaultPattern).rotation.getD 0 = 90 ∨
        ((rotatePattern isPortrait rng st i).patterns.getD i
            defaultPattern).rotation.getD 0 = 180 ∨
        ((rotatePattern isPortrait rng st i).patterns.getD i
            defaultPattern).rotation.getD 0 = 270)) ∧
    (0 ≤ (st.patterns.getD i defaultPattern).rotation.getD 0 →
      (st.patterns.getD i defaultPattern).rotation.getD 0 < 360 →
      ((rotatePattern isPortrait rng
            (rotatePattern isPortrait rng
              (rotatePattern isPortrait rng
                (rotatePattern isPortrait rng st i) i) i) i).patterns.getD i
          defaultPattern).rotation.getD 0
        = (st.patterns.getD i defaultPattern).rotation.getD 0) := by
  have step :
      ∀ s : SessionState, ∀ h : i < s.patterns.length,
        s.patterns.length = s.gridConfig.rows * s.gridConfig.cols →
        (rotatePattern isPortrait rng s i).patterns.getD i defaultPattern
            = { s.patterns.getD i defaultPattern with
                  rotation := some
                    (((s.patterns.getD i defaultPattern).rotation.getD 0
                        + 90).tmod 360) } ∧
          (rotatePattern isPortrait rng s i).patterns.length
              = s.patterns.length ∧
          (rotatePattern isPortrait rng s i).gridConfig = s.gridConfig := by
    intro s h hl
    obtain ⟨hp, hg, hlen2⟩ := rotatePattern_patterns_eq isPortrait rng s i hl
    refine ⟨?_, hlen2, hg⟩
    rw [hp, List.getD_eq_getElem?_getD, List.getElem?_set_self h,
      Option.getD_some]
  obtain ⟨h1, h2, h3⟩ := step st hi hlen
  obtain ⟨hp0, hg0, hl0⟩ := rotatePattern_patterns_eq isPortrait rng st i hlen
  refine ⟨h2, h3, by rw [h1], by rw [h1], by rw [h1], ?_, ?_, ?_⟩
  · intro j hj
    rw [hp0]
    exact List.getElem?_set_ne (fun hji => hj hji.symm)
  · intro hmem
    rw [h1]
    simp only [Option.getD_some]
    rcases hmem with h | h | h | h <;> rw [h] <;> decide
  · intro hge hlt
    set r : Int := (st.patterns.getD i defaultPattern).rotation.getD 0 with hr
    have hmod : ∀ a : Int, 0 ≤ a → (a + 90).tmod 360 = (a + 90) % 360 :=
      fun a ha => Int.tmod_eq_emod (by omega) (by omega)
    -- state after one call
    have st1i : i < (rotatePattern isPortrait rng st i).patterns.length := by
      rwa [h2]
    have st1l : (rotatePattern isPortrait rng st i).patterns.length
        = (rotatePattern isPortrait rng st i).gridConfig.rows
            * (rotatePattern isPortrait rng st i).gridConfig.cols := by
      rw [h2, h3]
      exact hlen
    obtain ⟨g1, g2, g3⟩ := step _ st1i st1l
    have st2i : i < (rotatePattern isPortrait rng
        (rotatePattern isPortrait rng st i) i).patterns.length := by
      rwa [g2]
    have st2l : (rotatePattern isPortrait rng
          (rotatePattern isPortrait rng st i) i).patterns.length
        = (rotatePattern isPortrait rng
              (rotatePattern isPortrait rng st i) i).gridConfig.rows
            * (rotatePattern isPortrait rng
                  (rotatePattern isPortrait rng st i) i).gridConfig.cols := by
      rw [g2, g3]
      exact st1l
    obtain ⟨f1, f2, f3⟩ := step _ st2i st2l
    have st3i : i < (rotatePattern isPortrait rng (rotatePattern isPortrait rng
        (rotatePattern isPortrait rng st i) i) i).patterns.length := by
      rwa [f2]
    have st3l : (rotatePattern isPortrait rng (rotatePattern isPortrait rng
          (rotatePattern isPortrait rng st i) i) i).patterns.length
        = (rotatePattern isPortrait rng (rotatePattern isPortrait rng
              (rotatePattern isPortrait rng st i) i) i).gridConfig.rows
            * (rotatePattern isPortrait rng (rotatePattern isPortrait rng
                  (rotatePattern isPortrait rng st i) i) i).gridConfig.cols := by
      rw [f2, f3]
      exact st2l
    obtain ⟨e1, e2, e3⟩ := step _ st3i st3l
    rw [e1, f1, g1, h1]
    simp only [Option.getD_some]
    rw [hmod r hge]
    rw [hmod ((r + 90) % 360) (by omega)]
    rw [hmod (((r + 90) % 360 + 90) % 360) (by omega)]
    rw [hmod ((((r + 90) % 360 + 90) % 360 + 90) % 360) (by omega)]
    omega

/-- C10 (witness): rotating the single checkerboard cell (prior rotation 0)
keeps the array length and stores rotation 90. -/
theorem C10_witness :
    (rotatePattern true sampleRng stateOneCell 0).patterns.length
        = stateOneCell.patterns.length ∧
      ((rotatePattern true sampleRng stateOneCell 0).patterns.getD 0
            defaultPattern).rotation
        = some (((stateOneCell.patterns.getD 0
              defaultPattern).rotation.getD 0 + 90).tmod 360) := by
  have h := C10_rotatePattern_spec true sampleRng stateOneCell 0 (by decide)
    (by decide)
  exact ⟨h.1, h.2.2.2.2.1⟩

/-! ### Claim about style/raster renderer agreement -/

/-- C9 (counterexample).  The two renderers do *not* agree for all nine
kinds.  For `ninepatch` the style layer places its 3×3 sub-grid on the
rounded boundaries `33.33`/`33.34` while the raster layer uses exact thirds
`100/3`.  For `flyinggeese` the raster's two right-hand background triangles
end at the cell center `(50, 50)` where the style layer's SVG triangles end
at the right-edge midpoint `(100, 50)` — the raster paints part of the right
goose over with background color. -/
theorem C9_counterexample :
    cssRegions (getPatternStyle ninepatchSample)
        ≠ rasterCellShapes ninepatchSample ∧
      cssRegions (getPatternStyle flyinggeeseSample)
        ≠ rasterCellShapes flyinggeeseSample := by
  have r3 : List.range 3 = [0, 1, 2] := rfl
  refine ⟨fun h => ?_, fun h => ?_⟩
  · simp only [getPatternStyle, rasterCellShapes, cssRegions, ninepatchSample,
      col, r3, List.map_cons, List.map_nil, List.flatMap_cons,
      List.flatMap_nil, List.append_nil, List.cons_append,
      List.nil_append] at h
    norm_num [List.cons.injEq, Geom.rect.injEq] at h
  · simp only [getPatternStyle, rasterCellShapes, cssRegions,
      flyinggeeseSample, col] at h
    norm_num [List.cons.injEq, Geom.poly.injEq, Prod.mk.injEq] at h

/-- C9 (amended).  For the seven kinds `solid`, `horizontal`, `vertical`,
`diagonal`, `checkerboard`, `quartersquare` and `pinwheel`, the raster
renderer's per-cell drawing fills exactly the regions described by the style
renderer's vector description with the same color slots: the geometric
reading of the emitted CSS/SVG equals the transcription of the canvas calls,
region for region, over the 100×100 cell.  (For `ninepatch` the sub-grid
boundaries differ — `33.33`/`33.34` versus `100/3` — and for `flyinggeese`
two background-triangle vertices differ, as the counterexample shows.) -/
theorem C9_renderer_geometry_agreement (p : Pattern)
    (h : p.type = .solid ∨ p.type = .horizontal ∨ p.type = .vertical ∨
      p.type = .diagonal ∨ p.type = .checkerboard ∨
      p.type = .quartersquare ∨ p.type = .pinwheel) :
    cssRegions (getPatternStyle p) = rasterCellShapes p := by
  have r5 : List.range 5 = [0, 1, 2, 3, 4] := rfl
  have r4 : List.range 4 = [0, 1, 2, 3] := rfl
  rcases h with h | h | h | h | h | h | h <;>
    simp only [getPatternStyle, rasterCellShapes, h, cssRegions, stripeStops,
      r5, r4, List.map_cons, List.map_nil, List.flatMap_cons,
      List.flatMap_nil, List.append_nil, List.cons_append, List.nil_append] <;>
    norm_num

/-- C9 (witness): the agreement theorem instantiated on a solid pattern. -/
theorem C9_witness :
    cssRegions (getPatternStyle solidSample) = rasterCellShapes solidSample :=
  C9_renderer_geometry_agreement solidSample (Or.inl rfl)

end Quilt
